import Mathlib

/-!
Verification of the lead-capture bot (`bot.py`) against its specification.

The bot's persistent state is one sqlite table `users` keyed by `user_id`
(`CREATE_TABLE`, bot.py lines 49-57).  We embed the table as an association
list from user id to a `Lead` row; `INSERT OR IGNORE` and `UPDATE ... WHERE
user_id=?` become pure functions on that list.  Handlers become pure
functions from store (plus the inbound payload) to store together with the
messages they send.  Fallible transport calls are modelled with `Except`.
-/

namespace Bot

/-- One row of the `users` table (bot.py lines 49-57): every column except
`user_id` (the key of the association list) and `created_at` is nullable,
hence an `Option String`. -/
structure Lead where
  name : Option String := none
  goal : Option String := none
  property : Option String := none
  city : Option String := none
  district : Option String := none
  mortgage : Option String := none
  handover : Option String := none
  finishing : Option String := none
  phone : Option String := none
  created_at : String
deriving DecidableEq, Repr

/-- The keyword arguments accepted by `upsert_user(uid, **fields)`.  The
callers in bot.py only ever pass `name`, `goal`, `property`, `city`,
`district`, `mortgage`, `handover`, `finishing` or `phone`, each with a
non-null value; `none` here means the keyword is absent from the call. -/
structure Fields where
  name : Option String := none
  goal : Option String := none
  property : Option String := none
  city : Option String := none
  district : Option String := none
  mortgage : Option String := none
  handover : Option String := none
  finishing : Option String := none
  phone : Option String := none
deriving DecidableEq, Repr

/-- Python's `if fields:` guard — true when no keyword argument was passed. -/
def Fields.isEmpty (f : Fields) : Bool :=
  f.name.isNone && f.goal.isNone && f.property.isNone && f.city.isNone &&
  f.district.isNone && f.mortgage.isNone && f.handover.isNone &&
  f.finishing.isNone && f.phone.isNone

/-- The `users` table: an association list keyed by `user_id`.  The primary
key constraint is maintained by construction (`insert_or_ignore` only appends
a fresh key). -/
abbrev Store := List (Nat × Lead)

/-- Row selection by primary key: `... WHERE user_id=?`. -/
def findRow : Store → Nat → Option Lead
  | [], _ => none
  | (k, v) :: s, uid => if uid = k then some v else findRow s uid

/-- The row created by `INSERT OR IGNORE INTO users(user_id, created_at)`
(bot.py line 67): only the key and the timestamp, every other column NULL. -/
def blankLead (now : String) : Lead := { created_at := now }

/-- `SET col=?`: a keyword that is present overwrites the column, an absent
keyword leaves it. -/
def pick (fv old : Option String) : Option String :=
  match fv with
  | some v => some v
  | none => old

/-- Effect of `UPDATE users SET <cols> WHERE user_id=?` on one row: each
named column is overwritten, the rest (including `created_at`, which no
caller ever names) keep their value. -/
def applyFields (f : Fields) (l : Lead) : Lead :=
  { name := pick f.name l.name
    goal := pick f.goal l.goal
    property := pick f.property l.property
    city := pick f.city l.city
    district := pick f.district l.district
    mortgage := pick f.mortgage l.mortgage
    handover := pick f.handover l.handover
    finishing := pick f.finishing l.finishing
    phone := pick f.phone l.phone
    created_at := l.created_at }

/-- `INSERT OR IGNORE INTO users(user_id, created_at) VALUES(?,?)`
(bot.py lines 66-69). -/
def insert_or_ignore (s : Store) (uid : Nat) (now : String) : Store :=
  match findRow s uid with
  | some _ => s
  | none => s ++ [(uid, blankLead now)]

/-- `UPDATE users SET <cols> WHERE user_id=?` (bot.py line 73): rewrites the
rows whose key is `uid`, leaves every other row alone. -/
def updateRow (s : Store) (uid : Nat) (f : Fields) : Store :=
  s.map (fun p => if p.1 = uid then (p.1, applyFields f p.2) else p)

/-- `upsert_user(uid, **fields)` (bot.py lines 64-75): always insert-or-ignore,
then update the named columns when at least one keyword was passed
(`if fields:`). -/
def upsert_user (s : Store) (now : String) (uid : Nat) (f : Fields) : Store :=
  let s1 := insert_or_ignore s uid now
  if f.isEmpty then s1 else updateRow s1 uid f

/-- `SELECT * FROM users WHERE user_id=?` — the row for `uid`, if any. -/
def getUser (s : Store) (uid : Nat) : Option Lead := findRow s uid

/-- `SELECT user_id FROM users` (`iterate_users`, bot.py lines 77-82). -/
def iterate_users (s : Store) : List Nat := s.map Prod.fst

/-- `SELECT COUNT(*) FROM users` (`get_user_count`, bot.py lines 84-89). -/
def get_user_count (s : Store) : Nat := s.length

/-! ### Association-list lemmas shared by the store proofs -/

theorem updateRow_cons (p : Nat × Lead) (s : Store) (uid : Nat) (f : Fields) :
    updateRow (p :: s) uid f =
      (if p.1 = uid then (p.1, applyFields f p.2) else p) :: updateRow s uid f := rfl

theorem findRow_append_of_none {s t : Store} {uid : Nat}
    (h : findRow s uid = none) : findRow (s ++ t) uid = findRow t uid := by
  induction s with
  | nil => rfl
  | cons p s ih =>
    obtain ⟨k, v⟩ := p
    by_cases hq : uid = k
    · subst hq; simp [findRow] at h
    · simp [findRow, hq] at h ⊢
      exact ih h

theorem findRow_singleton_self (uid : Nat) (l : Lead) :
    findRow ([(uid, l)] : Store) uid = some l := by
  simp [findRow]

theorem findRow_updateRow_self (s : Store) (uid : Nat) (f : Fields) :
    findRow (updateRow s uid f) uid = (findRow s uid).map (applyFields f) := by
  induction s with
  | nil => rfl
  | cons p s ih =>
    obtain ⟨k, v⟩ := p
    rw [updateRow_cons]
    by_cases hq : k = uid
    · subst hq
      rw [if_pos rfl]
      simp [findRow]
    · rw [if_neg hq]
      simp only [findRow, if_neg (Ne.symm hq)]
      exact ih

theorem findRow_updateRow_other (s : Store) (uid k : Nat) (f : Fields)
    (hk : k ≠ uid) :
    findRow (updateRow s uid f) k = findRow s k := by
  induction s with
  | nil => rfl
  | cons p s ih =>
    obtain ⟨q, v⟩ := p
    rw [updateRow_cons]
    by_cases hq : q = uid
    · subst hq
      rw [if_pos rfl]
      simp only [findRow, if_neg hk]
      exact ih
    · rw [if_neg hq]
      by_cases hkq : k = q
      · subst hkq; simp [findRow]
      · simp only [findRow, if_neg hkq]
        exact ih

theorem updateRow_keys (s : Store) (uid : Nat) (f : Fields) :
    (updateRow s uid f).map Prod.fst = s.map Prod.fst := by
  induction s with
  | nil => rfl
  | cons p s ih =>
    obtain ⟨k, v⟩ := p
    by_cases hq : k = uid
    · simp [updateRow_cons, hq, ih]
    · simp [updateRow_cons, hq, ih]

theorem applyFields_of_isEmpty {f : Fields} (h : f.isEmpty = true) (l : Lead) :
    applyFields f l = l := by
  rw [Fields.isEmpty] at h
  simp only [Bool.and_eq_true, Option.isNone_iff_eq_none] at h
  obtain ⟨⟨⟨⟨⟨⟨⟨⟨h1, h2⟩, h3⟩, h4⟩, h5⟩, h6⟩, h7⟩, h8⟩, h9⟩ := h
  cases l
  simp [applyFields, h1, h2, h3, h4, h5, h6, h7, h8, h9, pick]

theorem findRow_insert_or_ignore_self (s : Store) (uid : Nat) (now : String) :
    findRow (insert_or_ignore s uid now) uid =
      some ((findRow s uid).getD (blankLead now)) := by
  rw [insert_or_ignore]
  cases h : findRow s uid with
  | some l => simp [h]
  | none =>
    rw [findRow_append_of_none h, findRow_singleton_self]
    simp

theorem findRow_upsert_self (s : Store) (now : String) (uid : Nat) (f : Fields) :
    findRow (upsert_user s now uid f) uid =
      some (applyFields f ((findRow s uid).getD (blankLead now))) := by
  have hins := findRow_insert_or_ignore_self s uid now
  simp only [upsert_user]
  by_cases hf : f.isEmpty = true
  · rw [if_pos hf, hins, applyFields_of_isEmpty hf]
  · rw [if_neg hf, findRow_updateRow_self, hins]
    rfl

theorem findRow_upsert_other (s : Store) (now : String) (uid k : Nat)
    (f : Fields) (hk : k ≠ uid) (hu : (findRow s uid).isSome) :
    findRow (upsert_user s now uid f) k = findRow s k := by
  have hins : insert_or_ignore s uid now = s := by
    rw [insert_or_ignore]
    cases h : findRow s uid with
    | some l => rfl
    | none => rw [h] at hu; exact absurd hu (by simp)
  simp only [upsert_user, hins]
  by_cases hf : f.isEmpty = true
  · rw [if_pos hf]
  · rw [if_neg hf]
    exact findRow_updateRow_other s uid k f hk

/-! ### Broadcast dispatcher (`mass_send`, bot.py lines 91-96)

Delivery (`bot.send_message`) is an external collaborator that may fail, so
it is a parameter of type `Nat → Except String Unit`.  The Python function
returns `None`; to make its behaviour observable we return the trace of the
loop: the ids the loop attempted (first component) and the ids whose
delivery succeeded (second component).  The `except: continue` is the
`Except.error` branch, which keeps iterating. -/
def mass_send (send : Nat → Except String Unit) : List Nat → List Nat × List Nat
  | [] => ([], [])
  | uid :: rest =>
    let r := mass_send send rest
    match send uid with
    | Except.ok _ => (uid :: r.1, uid :: r.2)
    | Except.error _ => (uid :: r.1, r.2)

/-! ### The catch-all keyword responder (`smart_replies`, bot.py lines 244-254) -/

/-- Python's `str.lower()` restricted to the alphabets this program uses:
ASCII and Russian Cyrillic (`А`..`Я` and `Ё`). -/
def pyLowerChar (c : Char) : Char :=
  if 0x410 ≤ c.toNat ∧ c.toNat ≤ 0x42F then Char.ofNat (c.toNat + 0x20)
  else if c.toNat = 0x401 then Char.ofNat 0x451
  else c.toLower

/-- `text.lower()`. -/
def pyLower (s : String) : String := s.map pyLowerChar

def listPrefixOf : List Char → List Char → Bool
  | [], _ => true
  | _ :: _, [] => false
  | a :: as, b :: bs => a == b && listPrefixOf as bs

def listSubOf (n : List Char) : List Char → Bool
  | [] => n.isEmpty
  | b :: bs => listPrefixOf n (b :: bs) || listSubOf n bs

/-- Python's substring test `needle in hay`. -/
def containsSub (needle hay : String) : Bool := listSubOf needle.data hay.data

def reply_sea : String :=
  "🏖 Отличные варианты на побережье Краснодарского края! Напишите, какой формат интересует."

def reply_price : String :=
  "💰 Уточните параметры – и мы подберем лучшие предложения."

def reply_mortgage : String :=
  "🏦 Мы предлагаем семейную ипотеку и рассрочку под ваш бюджет."

def reply_generic : String :=
  "🤝 Спасибо за сообщение! Ответим в ближайшее время."

/-- `smart_replies` (bot.py lines 244-254) on the message text.  Python
computes `text = message.text.lower()` once; here `pyLower text` is written
at each use, which is the same value. -/
def smart_replies (text : String) : String :=
  if ["море", "побережье"].any (fun k => containsSub k (pyLower text)) then reply_sea
  else if ["цена", "стоимость"].any (fun k => containsSub k (pyLower text)) then reply_price
  else if ["ипотек", "рассроч"].any (fun k => containsSub k (pyLower text)) then reply_mortgage
  else reply_generic

/-- The full default handler: `message.text` is `Option`-typed because a
sticker or photo reaching it carries no text; `message.text.lower()` on
`None` raises `AttributeError`, embedded as the `Except.error` branch. -/
def smart_replies_msg (text : Option String) : Except String String :=
  match text with
  | none => Except.error "AttributeError: NoneType object has no attribute"
  | some t => Except.ok (smart_replies t)

/-- The handler paired with the store it could have touched: `smart_replies`
contains no database call, so the store passes through unchanged. -/
def smart_replies_handler (s : Store) (text : String) : Store × String :=
  (s, smart_replies text)

/-- Specification-side responder, written from the spec's words: an ordered
list of keyword-groups, each with its canned reply; the first group with a
case-insensitively contained keyword wins, otherwise the generic
acknowledgement. -/
def keyword_groups : List (List String × String) :=
  [(["море", "побережье"], reply_sea),
   (["цена", "стоимость"], reply_price),
   (["ипотек", "рассроч"], reply_mortgage)]

/-- Specification-side classification (first matching group wins). -/
def classify_spec (text : String) : String :=
  match keyword_groups.find? (fun g => g.1.any (fun k => containsSub k (pyLower text))) with
  | some g => g.2
  | none => reply_generic

/-! ### Conversation handlers -/

def member_statuses : List String := ["member", "creator", "administrator"]

def join_text : String :=
  "👋 Добро пожаловать! Чтобы начать, подпишитесь на наш канал."

def goal_question : String :=
  "Вы рассматриваете недвижимость для жизни или в качестве инвестиции?"

/-- `cmd_start` (bot.py lines 99-118): upsert with `name=full_name`, then the
membership gate: a status outside `member`/`creator`/`administrator` gets
the join prompt and returns; otherwise `ask_goal` sends the goal question.
The result is the new store and the list of messages sent to the user. -/
def cmd_start (s : Store) (now : String) (uid : Nat) (full_name : String)
    (status : String) : Store × List String :=
  let s1 := upsert_user s now uid { name := some full_name }
  if !(member_statuses.contains status) then (s1, [join_text])
  else (s1, [goal_question])

def install_location_text : String := "Тогда доступна рассрочка. Выберите локацию:"

def ask_handover_text : String := "Важно ли, чтобы дом уже сдан?"

/-- `handle_family` (bot.py lines 178-193): `choice` is the part of the
callback payload after `family_`; `yes` stores `mortgage="family"` and asks
the handover question, anything else stores `mortgage="no_family"` and asks
for the installment location. -/
def handle_family (s : Store) (now : String) (uid : Nat) (choice : String) :
    Store × String :=
  let val := if choice == "yes" then "family" else "no_family"
  let s1 := upsert_user s now uid { mortgage := some val }
  if choice == "no" then (s1, install_location_text)
  else (s1, ask_handover_text)

/-- `handle_install` (bot.py lines 195-200): `loc` is the part of the
callback payload after `install_`; stores `mortgage="install_" + loc` and
asks the handover question. -/
def handle_install (s : Store) (now : String) (uid : Nat) (loc : String) :
    Store × String :=
  (upsert_user s now uid { mortgage := some ("install_" ++ loc) }, ask_handover_text)

/-- `str(value)` of a nullable column in an f-string: NULL prints as
`None`. -/
def optStr : Option String → String
  | none => "None"
  | some v => v

/-- The `parts` list built in `handle_contact` (bot.py line 236) from
`SELECT *`: row[2]..row[9] are goal, property, city, district, mortgage,
handover, finishing, phone. -/
def leadParts (l : Lead) : List String :=
  ["Цель: " ++ optStr l.goal,
   "Тип: " ++ optStr l.property,
   "Город: " ++ optStr l.city,
   "Район: " ++ optStr l.district,
   "Ипотека: " ++ optStr l.mortgage,
   "Сдача: " ++ optStr l.handover,
   "Отделка: " ++ optStr l.finishing,
   "Телефон: " ++ optStr l.phone]

def admin_header : String := "📩 Заявка получили!"

def pdf_caption : String :=
  "Выдача самого топового предложения на побережье с ПВ от 600 тысяч рублей"

def thanks_text : String := "Спасибо! Наш специалист свяжется с Вами. ✨"

/-- Result of `handle_contact`: the new store, the chat id and text of the
`bot.send_message` to the admin, the `parts` list that was computed (bot.py
line 236) and the messages sent back to the user. -/
structure ContactResult where
  store : Store
  admin_chat : Nat
  admin_text : String
  parts : List String
  user_msgs : List String
deriving DecidableEq, Repr

/-- `handle_contact` (bot.py lines 229-242): store the shared phone number,
re-read the full row, build `parts`, notify the admin, optionally send the
PDF, thank the user.

The source at lines 237-239 reads

    await bot.send_message(ADMIN_ID, "📩 Заявка получили!")
    " + "
    ".join((parts))

the string-literal continuation is broken by raw newlines, so the call that
is actually closed at line 237 sends only the header, and the
newline-join of `parts` is stranded as a fragment that is never part of the
sent message (as written it is not even valid Python).  The embedding keeps
the computed `parts` observable in the result but, faithfully to line 237,
the admin text is the bare header. -/
def handle_contact (s : Store) (now : String) (uid : Nat)
    (phone_number : String) (admin_id : Nat) (pdf_exists : Bool) : ContactResult :=
  let s1 := upsert_user s now uid { phone := some phone_number }
  let parts := match findRow s1 uid with
    | some l => leadParts l
    | none => []
  { store := s1
    admin_chat := admin_id
    admin_text := admin_header
    parts := parts
    user_msgs := (if pdf_exists then [pdf_caption] else []) ++ [thanks_text] }

/-! ### Sequences of store operations (for the `count` contract)

The spec's `ensure(id)` is `upsert_user(uid)` with no keyword arguments and
its `update(id, fields)` is `upsert_user(uid, **fields)`. -/

inductive Op where
  | ensure (uid : Nat)
  | update (uid : Nat) (f : Fields)
deriving DecidableEq, Repr

def Op.uid : Op → Nat
  | .ensure uid => uid
  | .update uid _ => uid

def applyOp (now : String) (s : Store) : Op → Store
  | .ensure uid => upsert_user s now uid {}
  | .update uid f => upsert_user s now uid f

/-- Run a sequence of store operations from a store `s`. -/
def runFrom (now : String) (s : Store) (ops : List Op) : Store :=
  ops.foldl (applyOp now) s

/-- Run a sequence of store operations from the empty table. -/
def runOps (now : String) (ops : List Op) : Store :=
  runFrom now [] ops

/-- The ids passed to `ensure` in a sequence. -/
def ensureIds (ops : List Op) : List Nat :=
  ops.filterMap (fun op => match op with
    | .ensure uid => some uid
    | .update _ _ => none)

/-! ### Key-set lemmas for `count` -/

theorem findRow_isSome_iff_mem_keys (s : Store) (uid : Nat) :
    (findRow s uid).isSome ↔ uid ∈ s.map Prod.fst := by
  induction s with
  | nil => simp [findRow]
  | cons p s ih =>
    obtain ⟨k, v⟩ := p
    by_cases hq : uid = k
    · subst hq; simp [findRow]
    · simp [findRow, hq, ih]

theorem keys_upsert (s : Store) (now : String) (uid : Nat) (f : Fields) :
    (upsert_user s now uid f).map Prod.fst =
      if (findRow s uid).isSome then s.map Prod.fst else s.map Prod.fst ++ [uid] := by
  have hkeys : (insert_or_ignore s uid now).map Prod.fst =
      if (findRow s uid).isSome then s.map Prod.fst else s.map Prod.fst ++ [uid] := by
    rw [insert_or_ignore]
    cases h : findRow s uid with
    | some l => simp [h]
    | none => simp [h]
  simp only [upsert_user]
  by_cases hf : f.isEmpty = true
  · rw [if_pos hf]; exact hkeys
  · rw [if_neg hf, updateRow_keys]; exact hkeys

theorem keys_applyOp_toFinset (now : String) (s : Store) (op : Op) :
    ((applyOp now s op).map Prod.fst).toFinset =
      insert op.uid (s.map Prod.fst).toFinset := by
  have main : ∀ uid f, ((upsert_user s now uid f).map Prod.fst).toFinset =
      insert uid (s.map Prod.fst).toFinset := by
    intro uid f
    rw [keys_upsert]
    by_cases hmem : uid ∈ s.map Prod.fst
    · rw [if_pos ((findRow_isSome_iff_mem_keys s uid).mpr hmem)]
      exact (Finset.insert_eq_self.mpr (List.mem_toFinset.mpr hmem)).symm
    · rw [if_neg (fun h => hmem ((findRow_isSome_iff_mem_keys s uid).mp h)),
        List.toFinset_append]
      ext x
      simp [or_comm]
  cases op with
  | ensure uid => exact main uid {}
  | update uid f => exact main uid f

theorem keys_nodup_applyOp (now : String) (s : Store) (op : Op)
    (h : (s.map Prod.fst).Nodup) : ((applyOp now s op).map Prod.fst).Nodup := by
  have main : ∀ uid f, ((upsert_user s now uid f).map Prod.fst).Nodup := by
    intro uid f
    rw [keys_upsert]
    by_cases hmem : uid ∈ s.map Prod.fst
    · rw [if_pos ((findRow_isSome_iff_mem_keys s uid).mpr hmem)]
      exact h
    · rw [if_neg (fun hq => hmem ((findRow_isSome_iff_mem_keys s uid).mp hq)),
        List.nodup_append]
      refine ⟨h, List.nodup_singleton uid, ?_⟩
      intro x hx hx'
      rw [List.mem_singleton] at hx'
      subst hx'
      exact hmem hx
  cases op with
  | ensure uid => exact main uid {}
  | update uid f => exact main uid f

theorem keys_runFrom_nodup (now : String) (ops : List Op) (s : Store)
    (h : (s.map Prod.fst).Nodup) : ((runFrom now s ops).map Prod.fst).Nodup := by
  induction ops generalizing s with
  | nil => exact h
  | cons op ops ih =>
    exact ih (applyOp now s op) (keys_nodup_applyOp now s op h)

theorem keys_runFrom_toFinset (now : String) (ops : List Op) (s : Store) :
    ((runFrom now s ops).map Prod.fst).toFinset =
      (s.map Prod.fst).toFinset ∪ (ops.map Op.uid).toFinset := by
  induction ops generalizing s with
  | nil => simp [runFrom]
  | cons op ops ih =>
    have step : runFrom now s (op :: ops) = runFrom now (applyOp now s op) ops := rfl
    rw [step, ih, keys_applyOp_toFinset]
    simp only [List.map_cons, List.toFinset_cons]
    ext x
    simp [or_assoc]

theorem uid_mem_ensureIds {ops : List Op} {uid : Nat}
    (hall : ∀ uid' f, Op.update uid' f ∈ ops → Op.ensure uid' ∈ ops)
    (h : uid ∈ ops.map Op.uid) : uid ∈ ensureIds ops := by
  rw [List.mem_map] at h
  obtain ⟨op, hop, huid⟩ := h
  cases op with
  | ensure u =>
    have hu : u = uid := by simpa [Op.uid] using huid
    rw [ensureIds, List.mem_filterMap]
    exact ⟨Op.ensure u, hop, by simp [hu]⟩
  | update u f =>
    have hu : u = uid := by simpa [Op.uid] using huid
    have hen : Op.ensure u ∈ ops := hall u f hop
    rw [ensureIds, List.mem_filterMap]
    exact ⟨Op.ensure u, hen, by simp [hu]⟩

theorem ensureIds_subset_uids {ops : List Op} {uid : Nat}
    (h : uid ∈ ensureIds ops) : uid ∈ ops.map Op.uid := by
  rw [ensureIds, List.mem_filterMap] at h
  obtain ⟨op, hop, hsome⟩ := h
  cases op with
  | ensure u =>
    simp only [Option.some.injEq] at hsome
    exact List.mem_map.mpr ⟨Op.ensure u, hop, by simp [Op.uid, hsome]⟩
  | update u f => simp at hsome

/-! ### Claims about the Lead Record Store contract -/

/-- Claim C4: for every id not previously present in the store, `ensure`
(an `upsert_user` call with no keyword arguments) followed immediately by
`get` returns a record in which id (the key the row is found under) and
`created_at` are populated and every other field — name, goal, property,
city, district, mortgage, handover, finishing, phone — is unset. -/
theorem C4_ensure_then_get (s : Store) (now : String) (uid : Nat)
    (h : findRow s uid = none) :
    getUser (upsert_user s now uid {}) uid =
      some { name := none, goal := none, property := none, city := none,
             district := none, mortgage := none, handover := none,
             finishing := none, phone := none, created_at := now } := by
  rw [getUser, findRow_upsert_self, h]
  rfl

theorem C4_witness :
    findRow ([] : Store) 123 = none ∧
    getUser (upsert_user [] "2026-10-12T00:00:00" 123 {}) 123 =
      some { name := none, goal := none, property := none, city := none,
             district := none, mortgage := none, handover := none,
             finishing := none, phone := none,
             created_at := "2026-10-12T00:00:00" } :=
  ⟨rfl, C4_ensure_then_get [] "2026-10-12T00:00:00" 123 rfl⟩

/-- Claim C5: `ensure` is idempotent — when the id already has a record, a
further `ensure` call (`INSERT OR IGNORE` with no `UPDATE`) returns the
store completely unchanged, so in particular the row keeps the `created_at`
that was assigned when it was first created (the fresh timestamp argument
`now` is discarded). -/
theorem C5_ensure_idempotent (s : Store) (now : String) (uid : Nat)
    (l : Lead) (h : findRow s uid = some l) :
    upsert_user s now uid {} = s := by
  simp only [upsert_user, insert_or_ignore, h]
  rfl

theorem C5_witness :
    findRow [(7, blankLead "2026-01-01")] 7 = some (blankLead "2026-01-01") ∧
    upsert_user [(7, blankLead "2026-01-01")] "2026-02-02" 7 {} =
      [(7, blankLead "2026-01-01")] :=
  ⟨rfl, C5_ensure_idempotent [(7, blankLead "2026-01-01")] "2026-02-02" 7
    (blankLead "2026-01-01") rfl⟩

/-- Claim C6: for an existing record, `update` overwrites exactly the named
fields: the row for `uid` becomes `applyFields f l`, in which every column
is `pick f.x l.x` — the new value where the keyword is present, the prior
value where it is absent — `created_at` (never a keyword) is untouched,
rows of other ids are untouched, and an update with an empty mapping
leaves the store unchanged. -/
theorem C6_update_frame (s : Store) (now : String) (uid k : Nat)
    (l : Lead) (f : Fields) (h : findRow s uid = some l) (hk : k ≠ uid) :
    getUser (upsert_user s now uid f) uid = some (applyFields f l) ∧
    (applyFields f l).name = pick f.name l.name ∧
    (applyFields f l).goal = pick f.goal l.goal ∧
    (applyFields f l).property = pick f.property l.property ∧
    (applyFields f l).city = pick f.city l.city ∧
    (applyFields f l).district = pick f.district l.district ∧
    (applyFields f l).mortgage = pick f.mortgage l.mortgage ∧
    (applyFields f l).handover = pick f.handover l.handover ∧
    (applyFields f l).finishing = pick f.finishing l.finishing ∧
    (applyFields f l).phone = pick f.phone l.phone ∧
    (applyFields f l).created_at = l.created_at ∧
    getUser (upsert_user s now uid f) k = getUser s k ∧
    (f.isEmpty = true → upsert_user s now uid f = s) := by
  refine ⟨?_, rfl, rfl, rfl, rfl, rfl, rfl, rfl, rfl, rfl, rfl, ?_, ?_⟩
  · rw [getUser, findRow_upsert_self, h]
    rfl
  · rw [getUser, getUser]
    exact findRow_upsert_other s now uid k f hk (by rw [h]; rfl)
  · intro hf
    simp only [upsert_user, insert_or_ignore, h, if_pos hf]

theorem C6_witness :
    findRow [(1, blankLead "t1"), (2, blankLead "t2")] 1 = some (blankLead "t1") ∧
    getUser (upsert_user [(1, blankLead "t1"), (2, blankLead "t2")] "t3" 1
        { goal := some "invest" }) 1 =
      some (applyFields { goal := some "invest" } (blankLead "t1")) ∧
    (applyFields { goal := some "invest" } (blankLead "t1")).created_at = "t1" ∧
    getUser (upsert_user [(1, blankLead "t1"), (2, blankLead "t2")] "t3" 1
        { goal := some "invest" }) 2 =
      getUser [(1, blankLead "t1"), (2, blankLead "t2")] 2 := by
  have h := C6_update_frame [(1, blankLead "t1"), (2, blankLead "t2")] "t3" 1 2
    (blankLead "t1") { goal := some "invest" } rfl (by decide)
  exact ⟨rfl, h.1, h.2.2.2.2.2.2.2.2.2.2.1, h.2.2.2.2.2.2.2.2.2.2.2.1⟩

/-- Claim C7: after any sequence of `ensure` and `update` calls in which
every `update` is applied to an id that is also `ensure`d in the sequence
(the contract restricts `update` to existing or just-ensured records),
`count()` — `SELECT COUNT(*)` — equals the number of distinct ids passed to
`ensure`, independent of how many `update` calls were made per id. -/
theorem C7_count_distinct_ensures (now : String) (ops : List Op)
    (hall : ∀ uid f, Op.update uid f ∈ ops → Op.ensure uid ∈ ops) :
    get_user_count (runOps now ops) = (ensureIds ops).toFinset.card := by
  have hnodup : ((runOps now ops).map Prod.fst).Nodup :=
    keys_runFrom_nodup now ops [] (by simp)
  have hset : ((runOps now ops).map Prod.fst).toFinset = (ops.map Op.uid).toFinset := by
    rw [runOps, keys_runFrom_toFinset]
    simp
  have hsame : (ops.map Op.uid).toFinset = (ensureIds ops).toFinset := by
    ext x
    simp only [List.mem_toFinset]
    exact ⟨fun hx => uid_mem_ensureIds hall hx, fun hx => ensureIds_subset_uids hx⟩
  have hlen : get_user_count (runOps now ops) = ((runOps now ops).map Prod.fst).length := by
    rw [get_user_count, List.length_map]
  rw [hlen, ← List.toFinset_card_of_nodup hnodup, hset, hsame]

theorem C7_witness :
    get_user_count (runOps "t"
        [Op.ensure 1, Op.update 1 { goal := some "live" },
         Op.update 1 { city := some "spb" }, Op.ensure 2,
         Op.update 2 { goal := some "invest" }, Op.ensure 1]) =
      (ensureIds
        [Op.ensure 1, Op.update 1 { goal := some "live" },
         Op.update 1 { city := some "spb" }, Op.ensure 2,
         Op.update 2 { goal := some "invest" }, Op.ensure 1]).toFinset.card :=
  C7_count_distinct_ensures "t"
    [Op.ensure 1, Op.update 1 { goal := some "live" },
     Op.update 1 { city := some "spb" }, Op.ensure 2,
     Op.update 2 { goal := some "invest" }, Op.ensure 1]
    (by
      intro uid f hmem
      simp only [List.mem_cons, List.not_mem_nil, or_false] at hmem
      rcases hmem with h | h | h | h | h | h <;>
        first
          | exact Op.noConfusion h
          | (injection h with h1 h2
             subst h1
             decide))

/-! ### Claims about the conversation handlers -/

/-- Claim C2 as stated is false on the code: `cmd_start` calls
`upsert_user(user_id, name=...)` (bot.py line 102) before the membership
check, so even a non-member's record carries `name`.  At the concrete input
(fresh store, uid 123, display name `Ivan`, status `left`) the join prompt
is the only message, yet the stored record is not the bare id+created_at
record the claim demands. -/
theorem C2_counterexample :
    ¬ ((cmd_start [] "t" 123 "Ivan" "left").2 = [join_text] ∧
       getUser (cmd_start [] "t" 123 "Ivan" "left").1 123 = some (blankLead "t")) := by
  decide

/-- Claim C2 amended: on the first `/start` from a new id whose status is
outside member/creator/administrator, the user receives the join prompt and
no question prompt, and the stored record contains id, `created_at` and
`name` (set from the platform display name, bot.py line 102) — every other
field is unset. -/
theorem C2_amended_nonmember_start (s : Store) (now : String) (uid : Nat)
    (fname status : String) (h : findRow s uid = none)
    (hst : member_statuses.contains status = false) :
    (cmd_start s now uid fname status).2 = [join_text] ∧
    getUser (cmd_start s now uid fname status).1 uid =
      some { name := some fname, goal := none, property := none, city := none,
             district := none, mortgage := none, handover := none,
             finishing := none, phone := none, created_at := now } := by
  have hmem : status ∉ member_statuses := by simpa using hst
  constructor
  · simp [cmd_start, hmem]
  · simp only [cmd_start, hst, Bool.not_false, if_pos]
    rw [getUser, findRow_upsert_self, h]
    rfl

theorem C2_amended_witness :
    (cmd_start [] "t" 123 "Ivan" "left").2 = [join_text] ∧
    getUser (cmd_start [] "t" 123 "Ivan" "left").1 123 =
      some { name := some "Ivan", goal := none, property := none, city := none,
             district := none, mortgage := none, handover := none,
             finishing := none, phone := none, created_at := "t" } :=
  C2_amended_nonmember_start [] "t" 123 "Ivan" "left" rfl rfl

/-- Claim C3 as stated is false on the code: `handle_install` writes
`mortgage=f"install_{loc}"` (bot.py line 198), not `"installment_<loc>"`.
At the concrete input (family answer `no`, then location `coast`) the
stored financing value is `install_coast`, not `installment_coast`. -/
theorem C3_counterexample :
    ((getUser (handle_install (handle_family [] "t" 123 "no").1 "t" 123 "coast").1
        123).map Lead.mortgage = some (some "install_coast")) ∧
    ¬ ((getUser (handle_install (handle_family [] "t" 123 "no").1 "t" 123 "coast").1
        123).map Lead.mortgage = some (some ("installment_" ++ "coast"))) := by
  constructor
  · decide
  · decide

/-- Claim C3 amended: after answering the family-mortgage question with
`no` (which stores `mortgage="no_family"`), selecting installment location
`loc` overwrites the financing field to `"install_" ++ loc` (the code's
prefix is `install_`, not `installment_`), and the handover prompt is
emitted. -/
theorem C3_amended_install_overwrites (s : Store) (now now' : String)
    (uid : Nat) (loc : String) :
    (getUser (handle_family s now uid "no").1 uid).map Lead.mortgage =
      some (some "no_family") ∧
    (getUser (handle_install (handle_family s now uid "no").1 now' uid loc).1
        uid).map Lead.mortgage = some (some ("install_" ++ loc)) ∧
    (handle_install (handle_family s now uid "no").1 now' uid loc).2 =
      ask_handover_text := by
  refine ⟨?_, ?_, rfl⟩
  · have h1 : (handle_family s now uid "no").1 =
        upsert_user s now uid { mortgage := some "no_family" } := rfl
    rw [h1, getUser, findRow_upsert_self]
    rfl
  · have h2 : (handle_install (handle_family s now uid "no").1 now' uid loc).1 =
        upsert_user (handle_family s now uid "no").1 now' uid
          { mortgage := some ("install_" ++ loc) } := rfl
    rw [h2, getUser, findRow_upsert_self]
    rfl

/-- Claim C1 concerns the admin notification of `handle_contact`.  The
`parts` list (bot.py line 236) does assemble all 8 captured values, but the
send that is closed at line 237 is
`bot.send_message(ADMIN_ID, "📩 Заявка получили!")`; the
`"\x7bnewline\x7d".join(parts)` continuation is stranded on lines 238-239
by raw newlines inside the string literals (not even valid Python), so the
admin text contains none of the 8 values.  Evaluated at the spec's §8
happy-path lead for id 123 with phone `+79990000000`: the admin text is the
bare header, it contains neither the phone nor the goal, while the computed
(never sent) `parts` does contain the phone line. -/
theorem C1_admin_message_missing_fields :
    (handle_contact
        [(123, { name := some "Ivan", goal := some "invest",
                 property := some "2", city := some "moscow",
                 district := some "юго-западный", mortgage := some "install_coast",
                 handover := some "now", finishing := some "ready",
                 phone := none, created_at := "t0" })]
        "t1" 123 "+79990000000" 42 true).admin_text = admin_header ∧
    containsSub "+79990000000"
      (handle_contact
        [(123, { name := some "Ivan", goal := some "invest",
                 property := some "2", city := some "moscow",
                 district := some "юго-западный", mortgage := some "install_coast",
                 handover := some "now", finishing := some "ready",
                 phone := none, created_at := "t0" })]
        "t1" 123 "+79990000000" 42 true).admin_text = false ∧
    containsSub "invest"
      (handle_contact
        [(123, { name := some "Ivan", goal := some "invest",
                 property := some "2", city := some "moscow",
                 district := some "юго-западный", mortgage := some "install_coast",
                 handover := some "now", finishing := some "ready",
                 phone := none, created_at := "t0" })]
        "t1" 123 "+79990000000" 42 true).admin_text = false ∧
    "Телефон: +79990000000" ∈
      (handle_contact
        [(123, { name := some "Ivan", goal := some "invest",
                 property := some "2", city := some "moscow",
                 district := some "юго-западный", mortgage := some "install_coast",
                 handover := some "now", finishing := some "ready",
                 phone := none, created_at := "t0" })]
        "t1" 123 "+79990000000" 42 true).parts := by
  refine ⟨rfl, ?_, ?_, ?_⟩
  · decide
  · decide
  · decide

/-! ### Claims about the broadcast dispatcher and the catch-all responder -/

/-- Claim C8: `mass_send` attempts delivery to each id in order; a failing
delivery is swallowed (`except: continue`) so every remaining id is still
attempted — the attempted trace is always the full id list — the delivered
trace is exactly the ids whose send succeeded, and the dispatcher returns
normally (its result type carries no per-recipient error report). -/
theorem C8_broadcast_swallows_errors (send : Nat → Except String Unit)
    (ids : List Nat) :
    (mass_send send ids).1 = ids ∧
    (mass_send send ids).2 =
      ids.filter (fun uid => (send uid).toOption.isSome) := by
  induction ids with
  | nil => exact ⟨rfl, rfl⟩
  | cons uid rest ih =>
    cases h : send uid with
    | ok u => simp [mass_send, h, List.filter_cons, ih.1, ih.2, Except.toOption]
    | error e => simp [mass_send, h, List.filter_cons, ih.1, ih.2, Except.toOption]

/-- Claim C9: on every free-text message the catch-all handler leaves the
store untouched and replies exactly as the spec-side ordered keyword-group
classification prescribes: the canned reply of the first group (sea/coast,
then price/cost, then mortgage/installment) with a case-insensitively
contained keyword, else the generic acknowledgement. -/
theorem C9_smart_replies_matches_spec (s : Store) (text : String) :
    (smart_replies_handler s text).1 = s ∧
    (smart_replies_handler s text).2 = classify_spec text := by
  refine ⟨rfl, ?_⟩
  simp only [smart_replies_handler, smart_replies, classify_spec, keyword_groups]
  cases h1 : ["море", "побережье"].any (fun k => containsSub k (pyLower text)) <;>
  cases h2 : ["цена", "стоимость"].any (fun k => containsSub k (pyLower text)) <;>
  cases h3 : ["ипотек", "рассроч"].any (fun k => containsSub k (pyLower text)) <;>
  simp [List.find?, h1, h2, h3]

/-- Claim C10: the default handler is total only on messages that carry
text: with `message.text = None` (a sticker or photo), `message.text.lower()`
raises, so the handler errors and no reply — not even the generic
acknowledgement — is produced; on every text-carrying message it returns a
reply. -/
theorem C10_none_text_raises :
    smart_replies_msg none =
      Except.error "AttributeError: NoneType object has no attribute" ∧
    ∀ t, smart_replies_msg (some t) = Except.ok (smart_replies t) :=
  ⟨rfl, fun _ => rfl⟩

end Bot
